import Mathlib

/-!
Verification of the CodeRabbit MCP server dispatch core.

Shallow embedding of `src/MCPServer.ts`: the tool/resource catalogs, the
call-tool dispatch switch, and the six tool handlers.  Ambient effects are
made explicit: the process environment (API key), the clock
(`new Date().toISOString()`), and the outcome of each axios network call are
passed in as a `World` value, and each handler is a pure function of its
arguments and that world.  A thrown JavaScript exception is modelled as
`Except.error` carrying the message the enclosing catch block would read.
-/

namespace CodeRabbitMCP

/-- One content block of a tool result (`{ type: 'text', text: ... }`). -/
structure ContentBlock where
  type : String
  text : String
deriving DecidableEq, Repr

/-- A tool-call response envelope.  The source only ever sets
`isError: true` in the catch-all branch of the call-tool handler; every
other response leaves it unset (modelled as `false`). -/
structure ToolResponse where
  content : List ContentBlock
  isError : Bool := false
deriving DecidableEq, Repr

/-- Outcome of one axios network call, as observed by the calling handler.
`ok` carries the HTTP status, status text and the body (already rendered the
way `JSON.stringify(data, null, 2)` would print it); `axiosError` carries
`error.response?.status`, `error.response?.data?.message` and
`error.message`; `thrown` is any non-axios exception (`some msg` when it is
an `Error` instance, `none` otherwise). -/
inductive NetResult where
  | ok (status : Nat) (statusText : String) (dataJson : String)
  | axiosError (respStatus : Option Nat) (respDataMessage : Option String) (message : String)
  | thrown (message : Option String)
deriving DecidableEq, Repr

/-- The ambient world a request executes in: the `CODERABBIT_API_KEY`
environment variable (empty string when unset, per `|| ''`), the current
clock reading as an ISO string, and the outcome each network call would
have if issued. -/
structure World where
  apiKey : String
  now : String
  reportNet : NetResult
  healthNet : NetResult
deriving DecidableEq, Repr

/-- An entry of `reviews.path_instructions` in a review configuration. -/
structure PathInstruction where
  path : String
  instructions : String
deriving DecidableEq, Repr

/-- The `tools.astGrep` sub-configuration. -/
structure AstGrepConfig where
  essentialRules : Option Bool := none
  ruleDirs : Option (List String) := none
  utilDirs : Option (List String) := none
  packages : Option (List String) := none
deriving DecidableEq, Repr

/-- `tools` sub-object of a review configuration. -/
structure ToolsConfig where
  astGrep : Option AstGrepConfig := none
deriving DecidableEq, Repr

/-- The `configuration` argument of `configure_review_settings`. -/
structure ReviewConfiguration where
  pathInstructions : Option (List PathInstruction) := none
  tools : Option ToolsConfig := none
deriving DecidableEq, Repr

/-- The `dateRange` argument of `create_custom_report`.  `from` and `to`
are Lean keywords, hence the trailing underscores. -/
structure DateRange where
  from_ : Option String := none
  to_ : Option String := none
deriving DecidableEq, Repr

/-- The `filters` argument of `create_custom_report`. -/
structure Filters where
  repositories : Option (List String) := none
  authors : Option (List String) := none
  labels : Option (List String) := none
  includeOnlyMerged : Option Bool := none
  excludeBots : Option Bool := none
deriving DecidableEq, Repr

/-- The untyped `args` record every handler receives (`args as any`): a
JavaScript object in which any key the caller did not supply reads as
`undefined` (`none`).  Field names follow the source; `from` and `to` are
Lean keywords, hence `from_` and `to_`. -/
structure Args where
  from_ : Option String := none
  to_ : Option String := none
  repository : Option String := none
  pullRequestNumber : Option Int := none
  reviewInstructions : Option String := none
  configuration : Option ReviewConfiguration := none
  command : Option String := none
  context : Option String := none
  targetFiles : Option (List String) := none
  agentUrl : Option String := none
  template : Option String := none
  dateRange : Option DateRange := none
  filters : Option Filters := none
deriving DecidableEq, Repr

/-- JavaScript `a || b` on an optional string: `undefined` and the empty
string are falsy, so both fall through to the default. -/
def jsOr (a : Option String) (b : String) : String :=
  match a with
  | some s => if s = "" then b else s
  | none => b

/-- Template-literal interpolation of a possibly-`undefined` string:
JavaScript prints the literal text `undefined`. -/
def jsUndef (a : Option String) : String :=
  match a with
  | some s => s
  | none => "undefined"

/-!
JSON values and `JSON.stringify(v, null, 2)`.

`analyzePullRequest` and `createCustomReport` build an object literal and
render it with `JSON.stringify(value, null, 2)`.  Numbers are carried as
the literal JavaScript would print (`6.2`, `42`); object fields whose value
is `undefined` (`none`) are dropped by `JSON.stringify`, exactly as in
JavaScript.
-/

/-- A JSON value as built by the two synthetic-report handlers. -/
inductive Json where
  | str (s : String)
  | num (lit : String)
  | bool (b : Bool)
  | arr (elems : List Json)
  | obj (fields : List (String × Option Json))

/-- Lower-case hex digit, for `\u00XX` escapes. -/
def hexDigit (n : Nat) : Char :=
  if n < 10 then Char.ofNat (48 + n) else Char.ofNat (87 + n)

/-- Escaping of one character inside a JSON string literal, as
`JSON.stringify` performs it. -/
def jsonEscapeChar (c : Char) : List Char :=
  if c = '\x22' then ['\\', '\x22']
  else if c = '\\' then ['\\', '\\']
  else if c = '\n' then ['\\', 'n']
  else if c = '\r' then ['\\', 'r']
  else if c = '\t' then ['\\', 't']
  else if c.toNat = 8 then ['\\', 'b']
  else if c.toNat = 12 then ['\\', 'f']
  else if c.toNat < 32 then
    ['\\', 'u', '0', '0', hexDigit (c.toNat / 16), hexDigit (c.toNat % 16)]
  else [c]

/-- JSON string-literal escaping of a whole string. -/
def jsonEscape (s : String) : String :=
  ⟨s.data.flatMap jsonEscapeChar⟩

/-- A run of `n` spaces. -/
def nspaces (n : Nat) : String :=
  ⟨List.replicate n ' '⟩

mutual

/-- Render a JSON value the way `JSON.stringify(v, null, 2)` prints it when
the value starts at indentation `ind`. -/
def jsonRender : Nat → Json → String
  | _, .str s => "\x22" ++ jsonEscape s ++ "\x22"
  | _, .num lit => lit
  | _, .bool b => if b then "true" else "false"
  | ind, .arr l =>
    match jsonRenderElems ind l with
    | [] => "[]"
    | rs => "[\n" ++ String.intercalate ",\n" rs ++ "\n" ++ nspaces ind ++ "]"
  | ind, .obj fs =>
    match jsonRenderFields ind fs with
    | [] => "\x7b\x7d"
    | rs => "\x7b\n" ++ String.intercalate ",\n" rs ++ "\n" ++ nspaces ind ++ "\x7d"

/-- Rendered, indented lines of an array's elements. -/
def jsonRenderElems : Nat → List Json → List String
  | _, [] => []
  | ind, x :: xs =>
    (nspaces (ind + 2) ++ jsonRender (ind + 2) x) :: jsonRenderElems ind xs

/-- Rendered, indented lines of an object's fields; `undefined`-valued
fields are dropped. -/
def jsonRenderFields : Nat → List (String × Option Json) → List String
  | _, [] => []
  | ind, (_, none) :: fs => jsonRenderFields ind fs
  | ind, (k, some v) :: fs =>
    (nspaces (ind + 2) ++ "\x22" ++ jsonEscape k ++ "\x22: " ++ jsonRender (ind + 2) v)
      :: jsonRenderFields ind fs

end

/-!
Network requests.

Each axios call is recorded as the request descriptor the handler builds:
URL, body, and the axios per-request options object actually passed.
`generateReport` passes only `headers` (no `timeout` key); `checkHealth`
passes `{ timeout: 5000 }`.
-/

/-- The axios per-request options object a handler passes. -/
structure AxiosRequestConfig where
  timeout : Option Nat := none
  headers : List (String × String) := []
deriving DecidableEq, Repr

/-- The module-level `config.baseUrl` constant (MCPServer.ts line 28). -/
def baseUrl : String := "https://api.coderabbit.ai/api/v1"

/-- Headers of the `generateReport` POST (MCPServer.ts lines 356-360). -/
def generateReportHeaders (apiKey : String) : List (String × String) :=
  [("accept", "application/json"),
   ("x-coderabbitai-api-key", apiKey),
   ("Content-Type", "application/json")]

/-- The axios options object passed by `generateReport` (lines 355-361):
headers only — no `timeout` key. -/
def generateReportAxiosConfig (apiKey : String) : AxiosRequestConfig :=
  { timeout := none, headers := generateReportHeaders apiKey }

/-- The axios options object passed by `checkHealth` (lines 450-452):
`{ timeout: 5000 }`. -/
def checkHealthAxiosConfig : AxiosRequestConfig :=
  { timeout := some 5000, headers := [] }

/-- The POST request `generateReport` issues when it reaches the axios
call: URL, JSON body fields, and options. -/
structure HttpPostRequest where
  url : String
  bodyFrom : Option String
  bodyTo : Option String
  config : AxiosRequestConfig
deriving DecidableEq, Repr

/-- The GET request `checkHealth` issues. -/
structure HttpGetRequest where
  url : String
  config : AxiosRequestConfig
deriving DecidableEq, Repr

/-- The axios GET issued by `checkHealth` (line 450):
`axios.get(agentUrl + '/health', { timeout: 5000 })`. -/
def checkHealthRequest (args : Args) : HttpGetRequest :=
  { url := jsOr args.agentUrl "http://127.0.0.1:8080" ++ "/health",
    config := checkHealthAxiosConfig }

/-!
Tool handlers (MCPServer.ts lines 343-491).
-/

/-- The response shape every handler returns:
`{ content: [{ type: 'text', text }] }` with `isError` unset. -/
def textResponse (text : String) : ToolResponse :=
  { content := [{ type := "text", text := text }] }

/-- Trace of one `generateReport` invocation: the network request it
issued, if any, and its result (`Except.error` models a throw that the
call-tool catch block will turn into an error envelope). -/
structure GenerateReportRun where
  networkRequest : Option HttpPostRequest
  response : Except String ToolResponse
deriving Repr

/-- Handler `generateReport` (lines 343-376).  Throws when no API key is
configured; otherwise issues the POST and either formats the body, throws
an `API Error` for an axios error, or rethrows anything else. -/
def generateReportRun (args : Args) (w : World) : GenerateReportRun :=
  if w.apiKey = "" then
    { networkRequest := none,
      response := .error "CodeRabbit API key not configured. Set CODERABBIT_API_KEY environment variable." }
  else
    let req : HttpPostRequest :=
      { url := baseUrl ++ "/report.generate",
        bodyFrom := args.from_,
        bodyTo := args.to_,
        config := generateReportAxiosConfig w.apiKey }
    match w.reportNet with
    | .ok _ _ dataJson =>
      { networkRequest := some req,
        response := .ok (textResponse
          ("CodeRabbit Report Generated Successfully\n\n" ++ dataJson)) }
    | .axiosError respStatus respDataMessage message =>
      { networkRequest := some req,
        response := .error ("API Error: "
          ++ (match respStatus with | some n => toString n | none => "undefined")
          ++ " - " ++ jsOr respDataMessage message) }
    | .thrown m =>
      { networkRequest := some req, response := .error (m.getD "Unknown error") }

/-- The object literal `analysis` built by `analyzePullRequest`
(lines 380-406); `new Date().toISOString()` is the world's clock. -/
def analysisJson (args : Args) (now : String) : Json :=
  .obj [
    ("repository", args.repository.map .str),
    ("pullRequest", args.pullRequestNumber.map fun n => .num (toString n)),
    ("timestamp", some (.str now)),
    ("suggestions", some (.arr [
      .obj [
        ("type", some (.str "code_quality")),
        ("file", some (.str "src/utils.ts")),
        ("line", some (.num "42")),
        ("message", some (.str "Consider adding error handling for this function")),
        ("severity", some (.str "medium"))],
      .obj [
        ("type", some (.str "documentation")),
        ("file", some (.str "src/api.ts")),
        ("line", some (.num "15")),
        ("message", some (.str "Missing docstring for this public function")),
        ("severity", some (.str "low"))]])),
    ("metrics", some (.obj [
      ("linesAdded", some (.num "150")),
      ("linesRemoved", some (.num "25")),
      ("filesChanged", some (.num "8")),
      ("complexityScore", some (.num "6.2"))]))]

/-- Handler `analyzePullRequest` (lines 378-414). -/
def analyzePullRequest (args : Args) (w : World) : Except String ToolResponse :=
  .ok (textResponse ("Pull Request Analysis Complete\n\n"
    ++ jsonRender 0 (analysisJson args w.now)))

/-!
Function `generateCodeRabbitYaml` (lines 725-763).

The imperative `yaml += ...` accumulation is rendered as concatenation of
section strings; the `forEach` loops become `strConcat` over the mapped
items.  JavaScript truthiness: a present array (even empty) passes the
`if`; a present `essentialRules: false` does not.
-/

/-- Concatenation of a list of strings, in order. -/
def strConcat : List String → String
  | [] => ""
  | s :: l => s ++ strConcat l

/-- The lines appended for one `pathInstructions` entry (lines 731-733). -/
def renderPathInstruction (pi : PathInstruction) : String :=
  "    - path: \x22" ++ pi.path ++ "\x22\n"
    ++ "      instructions: |\n"
    ++ "        " ++ pi.instructions.replace "\n" "\n        " ++ "\n"

/-- The line appended for one quoted list item of `rule_dirs`, `util_dirs`
or `packages` (lines 744-746, 750-752, 756-758). -/
def renderQuotedItem (d : String) : String :=
  "        - \x22" ++ d ++ "\x22\n"

/-- The `reviews: path_instructions:` section (lines 728-735). -/
def pathInstructionsSection : Option (List PathInstruction) → String
  | none => ""
  | some l => "reviews:\n  path_instructions:\n" ++ strConcat (l.map renderPathInstruction)

/-- Line `essential_rules: true`, emitted only when the input value is truthy
(line 739-741): `some false` emits nothing. -/
def essentialRulesPart (o : Option Bool) : String :=
  if o = some true then "      essential_rules: true\n" else ""

/-- One quoted-list part (`rule_dirs`, `util_dirs`, `packages`). -/
def quotedListPart (header : String) : Option (List String) → String
  | none => ""
  | some ds => header ++ strConcat (ds.map renderQuotedItem)

/-- The `tools: ast-grep:` section (lines 737-760). -/
def astGrepSection : Option AstGrepConfig → String
  | none => ""
  | some ag =>
    "\n  tools:\n    ast-grep:\n"
      ++ essentialRulesPart ag.essentialRules
      ++ quotedListPart "      rule_dirs:\n" ag.ruleDirs
      ++ quotedListPart "      util_dirs:\n" ag.utilDirs
      ++ quotedListPart "      packages:\n" ag.packages

/-- Function `generateCodeRabbitYaml` (lines 725-763). -/
def generateCodeRabbitYaml (c : ReviewConfiguration) : String :=
  "# CodeRabbit Configuration\n\n"
    ++ pathInstructionsSection c.pathInstructions
    ++ astGrepSection (Option.bind c.tools ToolsConfig.astGrep)

/-- Handler `configureReviewSettings` (lines 416-425).  When `configuration` is
`undefined`, the property access `config.pathInstructions` inside
`generateCodeRabbitYaml` throws a TypeError, modelled by its message. -/
def configureReviewSettings (args : Args) : Except String ToolResponse :=
  match args.configuration with
  | none => .error "Cannot read properties of undefined (reading \x27pathInstructions\x27)"
  | some c =>
    .ok (textResponse ("CodeRabbit Configuration Generated for "
      ++ jsUndef args.repository
      ++ "\n\n```yaml\n" ++ generateCodeRabbitYaml c ++ "\n```"))

/-- The `commandMapping` object literal of `sendReviewCommand`
(lines 428-434); the `remember rule` and `provide context` values
interpolate `args.context` with a `||` default. -/
def commandMapping (context : Option String) : List (String × String) :=
  [("generate docstrings", "@coderabbitai generate docstrings"),
   ("explain reasoning",
    "@coderabbitai Why do all of these functions need docstrings? Isn\x27t it obvious enough what they do?"),
   ("remember rule",
    "@coderabbitai always remember " ++ jsOr context "to follow best practices"),
   ("provide context",
    "@coderabbitai " ++ jsOr context "do not complain about lack of error handling here, it is handled higher up the execution stack."),
   ("clarify suggestion", "@coderabbitai Please clarify this suggestion")]

/-- The lookup `commandMapping[args.command]` (line 436): indexing a
JavaScript object with a key that is not a property, or with `undefined`,
yields `undefined`. -/
def lookupCommand (command : Option String) (context : Option String) : Option String :=
  match command with
  | some c => (commandMapping context).lookup c
  | none => none

/-- Suffix appended when `args.targetFiles` is truthy (line 441):
`'\n\nTarget files: ' + args.targetFiles.join(', ')`. -/
def targetFilesSuffix : Option (List String) → String
  | some fs => "\n\nTarget files: " ++ String.intercalate ", " fs
  | none => ""

/-- The text built by `sendReviewCommand` (line 441); an undefined
`command` directive interpolates as the literal `undefined`. -/
def sendReviewCommandText (args : Args) : String :=
  "CodeRabbit Command: " ++ jsUndef (lookupCommand args.command args.context)
    ++ "\n\nThis command can be posted as a comment in your pull request to interact with CodeRabbit."
    ++ targetFilesSuffix args.targetFiles

/-- Handler `sendReviewCommand` (lines 427-444). -/
def sendReviewCommand (args : Args) : Except String ToolResponse :=
  .ok (textResponse (sendReviewCommandText args))

/-- The unhealthy-branch text of `checkHealth` (lines 461-466). -/
def unhealthyText (agentUrl message : String) : String :=
  "CodeRabbit Agent Health Check\n\nStatus: ❌ Unhealthy\nURL: " ++ agentUrl
    ++ "\nError: " ++ message

/-- Handler `checkHealth` (lines 446-468).  The whole body is wrapped in
try/catch, so every outcome of the probe yields a plain (non-error)
response; the handler itself never throws. -/
def checkHealth (args : Args) (w : World) : Except String ToolResponse :=
  let agentUrl := jsOr args.agentUrl "http://127.0.0.1:8080"
  match w.healthNet with
  | .ok status statusText _ =>
    .ok (textResponse ("CodeRabbit Agent Health Check\n\nStatus: ✅ Healthy\nURL: "
      ++ agentUrl ++ "\nResponse: " ++ toString status ++ " " ++ statusText))
  | .axiosError _ _ message =>
    .ok (textResponse (unhealthyText agentUrl message))
  | .thrown m =>
    .ok (textResponse (unhealthyText agentUrl (m.getD "Unknown error")))

/-- JSON rendering of the `filters` argument object. -/
def filtersJson (f : Filters) : Json :=
  .obj [
    ("repositories", f.repositories.map fun l => .arr (l.map .str)),
    ("authors", f.authors.map fun l => .arr (l.map .str)),
    ("labels", f.labels.map fun l => .arr (l.map .str)),
    ("includeOnlyMerged", f.includeOnlyMerged.map .bool),
    ("excludeBots", f.excludeBots.map .bool)]

/-- The object literal `reportData` built by `createCustomReport`
(lines 471-483); `filters: args.filters || {}` and
`generatedAt: new Date().toISOString()`. -/
def customReportJson (args : Args) (now : String) : Json :=
  .obj [
    ("template", args.template.map .str),
    ("dateRange", args.dateRange.map fun dr =>
      .obj [("from", dr.from_.map .str), ("to", dr.to_.map .str)]),
    ("filters", some (match args.filters with
      | some f => filtersJson f
      | none => .obj [])),
    ("generatedAt", some (.str now)),
    ("summary", some (.obj [
      ("totalPullRequests", some (.num "42")),
      ("mergedPullRequests", some (.num "38")),
      ("openPullRequests", some (.num "4")),
      ("averageReviewTime", some (.str "2.3 days")),
      ("topReviewers", some (.arr [.str "alice", .str "bob", .str "charlie"]))]))]

/-- Handler `createCustomReport` (lines 470-491). -/
def createCustomReport (args : Args) (w : World) : Except String ToolResponse :=
  .ok (textResponse ("Custom CodeRabbit Report\n\n"
    ++ jsonRender 0 (customReportJson args w.now)))

/-!
Call-tool dispatch (lines 224-259).
-/

/-- The six registered tools, one per `case` label of the dispatch switch. -/
inductive ToolName where
  | generate_report
  | analyze_pull_request
  | configure_review_settings
  | send_review_command
  | check_health
  | create_custom_report
deriving DecidableEq, Repr

/-- Which handler method the switch statement selects for a request's tool
name; `none` corresponds to the `default` branch (`throw new Error`). -/
def lookupTool (name : String) : Option ToolName :=
  if name = "generate_report" then some .generate_report
  else if name = "analyze_pull_request" then some .analyze_pull_request
  else if name = "configure_review_settings" then some .configure_review_settings
  else if name = "send_review_command" then some .send_review_command
  else if name = "check_health" then some .check_health
  else if name = "create_custom_report" then some .create_custom_report
  else none

/-- Invocation of the selected handler method with the raw `args`. -/
def dispatch (t : ToolName) (args : Args) (w : World) : Except String ToolResponse :=
  match t with
  | .generate_report => (generateReportRun args w).response
  | .analyze_pull_request => analyzePullRequest args w
  | .configure_review_settings => configureReviewSettings args
  | .send_review_command => sendReviewCommand args
  | .check_health => checkHealth args w
  | .create_custom_report => createCustomReport args w

/-- The catch-all branch (lines 250-258): any error thrown inside the
`try` becomes an `isError: true` envelope. -/
def errorEnvelope (name message : String) : ToolResponse :=
  { content := [{ type := "text",
                  text := "Error executing " ++ name ++ ": " ++ message }],
    isError := true }

/-- The complete `CallToolRequestSchema` handler (lines 224-259): switch on
the tool name, run the handler, convert any throw into an error envelope;
an unregistered name throws `Unknown tool: <name>` from the `default`
branch before any handler runs. -/
def callTool (name : String) (args : Args) (w : World) : ToolResponse :=
  match lookupTool name with
  | some t =>
    match dispatch t args w with
    | .ok r => r
    | .error message => errorEnvelope name message
  | none => errorEnvelope name ("Unknown tool: " ++ name)

/-- First content block's text of a response (all responses in this server
carry exactly one block). -/
def firstText (r : ToolResponse) : String :=
  (r.content.headD { type := "text", text := "" }).text

/-!
Tool catalog (the `ListToolsRequestSchema` handler, lines 55-221).
-/

/-- One tool descriptor of the static catalog: the tool's name, its
description, the keys of `inputSchema.properties` in declaration order, and
`inputSchema.required` (empty when the schema declares no `required` key,
as for `check_health`). -/
structure ToolDescriptor where
  name : String
  description : String
  propertyNames : List String
  requiredFields : List String
deriving DecidableEq, Repr

/-- The static tool catalog, in declaration order (lines 57-219). -/
def toolList : List ToolDescriptor :=
  [{ name := "generate_report",
     description := "Generate CodeRabbit on-demand reports for specified date range",
     propertyNames := ["from", "to"],
     requiredFields := ["from", "to"] },
   { name := "analyze_pull_request",
     description := "Analyze a specific pull request using CodeRabbit",
     propertyNames := ["repository", "pullRequestNumber", "reviewInstructions"],
     requiredFields := ["repository", "pullRequestNumber"] },
   { name := "configure_review_settings",
     description := "Configure CodeRabbit review settings for a repository",
     propertyNames := ["repository", "configuration"],
     requiredFields := ["repository", "configuration"] },
   { name := "send_review_command",
     description := "Send a command to CodeRabbit during code review",
     propertyNames := ["command", "context", "targetFiles"],
     requiredFields := ["command"] },
   { name := "check_health",
     description := "Check CodeRabbit agent health status",
     propertyNames := ["agentUrl"],
     requiredFields := [] },
   { name := "create_custom_report",
     description := "Create a custom report with specific template and filters",
     propertyNames := ["template", "dateRange", "filters"],
     requiredFields := ["template", "dateRange"] }]

/-- The `ListToolsRequestSchema` handler: a constant function of the
ambient world. -/
def listTools (_w : World) : List ToolDescriptor := toolList

/-- The names the dispatch switch registers, in catalog order. -/
def registeredToolNames : List String :=
  ["generate_report", "analyze_pull_request", "configure_review_settings",
   "send_review_command", "check_health", "create_custom_report"]

/-- The `enum` constraint of the `command` property of
`send_review_command` (lines 151-157). -/
def sendReviewCommandEnum : List String :=
  ["generate docstrings", "explain reasoning", "remember rule",
   "provide context", "clarify suggestion"]

/-!
Resource catalog and contents (lines 262-340 and 494-723).
-/

/-- One resource descriptor of the static catalog. -/
structure ResourceDescriptor where
  uri : String
  name : String
  description : String
  mimeType : String
deriving DecidableEq, Repr

/-- The static resource catalog (lines 266-291). -/
def resourceList : List ResourceDescriptor :=
  [{ uri := "coderabbit://config/sample",
     name := "Sample CodeRabbit Configuration",
     description := "Example .coderabbit.yaml configuration file",
     mimeType := "application/yaml" },
   { uri := "coderabbit://commands/help",
     name := "CodeRabbit Commands Reference",
     description := "Available CodeRabbit commands and their usage",
     mimeType := "text/markdown" },
   { uri := "coderabbit://tools/astgrep",
     name := "AST-Grep Rules Examples",
     description := "Example AST-Grep rules for code analysis",
     mimeType := "application/yaml" },
   { uri := "coderabbit://env/template",
     name := "Environment Configuration Template",
     description := "Template for CodeRabbit self-hosted .env file",
     mimeType := "text/plain" }]

/-- The `ListResourcesRequestSchema` handler: a constant function of the
ambient world. -/
def listResources (_w : World) : List ResourceDescriptor := resourceList

/-- Template returned by `getSampleConfiguration` (lines 494-536). -/
def getSampleConfiguration : String :=
  String.intercalate "\n" [
    "# .coderabbit.yaml - Sample Configuration",
    "",
    "# Remote configuration (optional)",
    "remote_config:",
    "  url: \x22https://your-config-location/.coderabbit.yaml\x22",
    "",
    "# Review settings",
    "reviews:",
    "  # Path-based instructions",
    "  path_instructions:",
    "    - path: \x22**/*.js\x22",
    "      instructions: |",
    "        Review the JavaScript code against the Google JavaScript style guide and point out any mismatches",
    "    - path: \x22tests/**.*\x22",
    "      instructions: |",
    "        Review the following unit test code written using the Mocha test library. Ensure that:",
    "        - The code adheres to best practices associated with Mocha.",
    "        - Descriptive test names are used to clearly convey the intent of each test.",
    "    - path: \x22**/*.ts\x22",
    "      instructions: |",
    "        Review TypeScript code for type safety and modern practices.",
    "",
    "  # Tools configuration",
    "  tools:",
    "    ast-grep:",
    "      essential_rules: true",
    "      rule_dirs:",
    "        - \x22custom-rules\x22",
    "      util_dirs:",
    "        - \x22utils\x22",
    "      packages:",
    "        - \x22my-awesome-org/my-awesome-package\x22",
    "",
    "# Code generation settings",
    "code_generation:",
    "  docstrings:",
    "    path_instructions:",
    "      - path: \x22**/*.ts\x22",
    "        instructions: |",
    "          End all docstrings with a notice that says \x22Auto-generated by CodeRabbit.\x22.",
    "          Do not omit the closing tags; the docstring must be valid."]

/-- Template returned by `getCommandsHelp` (lines 538-588). -/
def getCommandsHelp : String :=
  String.intercalate "\n" [
    "# CodeRabbit Commands Reference",
    "",
    "## Interactive Commands",
    "",
    "Use these commands in pull request comments to interact with CodeRabbit:",
    "",
    "### Code Generation",
    "`@coderabbitai generate docstrings`",
    "- Automatically generates and commits missing docstrings",
    "",
    "### Review Interaction",
    "`@coderabbitai explain reasoning`",
    "- Ask CodeRabbit to explain its review suggestions",
    "",
    "### Context Provision",
    "`@coderabbitai do not complain about [issue] here, it is handled [elsewhere]`",
    "- Provide context for specific code sections",
    "",
    "### Rule Management",
    "`@coderabbitai always remember to [rule]`",
    "- Set persistent rules for future reviews",
    "",
    "### Clarification",
    "`@coderabbitai Why do all of these functions need docstrings?`",
    "- Ask for clarification on specific suggestions",
    "",
    "## Configuration Commands",
    "",
    "### Path-based Instructions",
    "Configure review instructions for specific file patterns in `.coderabbit.yaml`:",
    "",
    "```yaml",
    "reviews:",
    "  path_instructions:",
    "    - path: \x22**/*.js\x22",
    "      instructions: |",
    "        Review against Google JavaScript style guide",
    "```",
    "",
    "### Tool Configuration",
    "Enable and configure analysis tools:",
    "",
    "```yaml",
    "reviews:",
    "  tools:",
    "    ast-grep:",
    "      essential_rules: true",
    "      rule_dirs: [\x22rules\x22]",
    "```"]

/-- Template returned by `getAstGrepExamples` (lines 590-641). -/
def getAstGrepExamples : String :=
  String.intercalate "\n" [
    "# AST-Grep Rules Examples",
    "",
    "# Restrict console usage in TypeScript",
    "id: no-console-except-error",
    "language: typescript",
    "message: \x22No console.log allowed except console.error in catch blocks\x22",
    "rule:",
    "  any:",
    "    - pattern: console.error($$$)",
    "      not:",
    "        inside:",
    "          kind: catch_clause",
    "          stopBy: end",
    "    - pattern: console.$METHOD($$$)",
    "constraints:",
    "  METHOD:",
    "    regex: \x22log|debug|warn\x22",
    "",
    "---",
    "",
    "# Disallow imports without extensions in JavaScript",
    "id: find-import-file",
    "language: js",
    "message: \x22Importing files without an extension is not allowed\x22",
    "rule:",
    "  regex: \x22/[^.]+[^/]$/\x22",
    "  kind: string_fragment",
    "  any:",
    "    - inside:",
    "        stopBy: end",
    "        kind: import_statement",
    "    - inside:",
    "        stopBy: end",
    "        kind: call_expression",
    "        has:",
    "          field: function",
    "          regex: \x22^import$\x22",
    "",
    "---",
    "",
    "# Utility rule for literals",
    "utils:",
    "  is-literal:",
    "    any:",
    "      - kind: string",
    "      - kind: number",
    "      - kind: boolean",
    "",
    "rule:",
    "  matches: is-literal"]

/-- Template returned by `getEnvTemplate` (lines 643-723). -/
def getEnvTemplate : String :=
  String.intercalate "\n" [
    "# CodeRabbit Self-Hosted Environment Configuration",
    "",
    "# LLM Provider Configuration",
    "LLM_PROVIDER=openai",
    "LLM_TIMEOUT=360000",
    "OPENAI_API_KEYS=<your-openai-key>",
    "OPENAI_BASE_URL=<optional-base-url>",
    "OPENAI_ORG_ID=<optional-org-id>",
    "OPENAI_PROJECT_ID=<optional-project-id>",
    "",
    "# Alternative: Azure OpenAI",
    "# LLM_PROVIDER=azure-openai",
    "# AZURE_OPENAI_ENDPOINT=<endpoint>",
    "# AZURE_OPENAI_API_KEY=<key>",
    "# AZURE_GPT41MINI_DEPLOYMENT_NAME=<deployment>",
    "# AZURE_O4MINI_DEPLOYMENT_NAME=<deployment>",
    "# AZURE_O3_DEPLOYMENT_NAME=<deployment>",
    "",
    "# Alternative: AWS Bedrock",
    "# LLM_PROVIDER=bedrock-anthropic",
    "# AWS_ACCESS_KEY_ID=<key>",
    "# AWS_SECRET_ACCESS_KEY=<secret>",
    "# AWS_REGION=<region>",
    "",
    "# Alternative: Anthropic",
    "# LLM_PROVIDER=anthropic",
    "# ANTHROPIC_API_KEYS=<key>",
    "",
    "# System Configuration",
    "TEMP_PATH=/cache",
    "",
    "# Platform Configuration (choose one)",
    "# For GitHub:",
    "SELF_HOSTED=github",
    "GH_WEBHOOK_SECRET=<webhook-secret>",
    "GITHUB_APP_CLIENT_ID=<client-id>",
    "GITHUB_APP_CLIENT_SECRET=<client-secret>",
    "GITHUB_APP_ID=<app-id>",
    "GITHUB_APP_PEM_FILE=<pem-content>",
    "",
    "# For GitLab:",
    "# SELF_HOSTED=gitlab",
    "# GITLAB_BOT_TOKEN=<token>",
    "# GITLAB_WEBHOOK_SECRET=<secret>",
    "",
    "# For Azure DevOps:",
    "# SELF_HOSTED=azure-devops",
    "# AZURE_DEVOPS_BOT_TOKEN=<token>",
    "# AZURE_DEVOPS_BOT_USERNAME=<username>",
    "",
    "# For Bitbucket:",
    "# SELF_HOSTED=bitbucket-server",
    "# BITBUCKET_SERVER_URL=<url>/rest",
    "# BITBUCKET_SERVER_WEBHOOK_SECRET=<secret>",
    "# BITBUCKET_SERVER_BOT_TOKEN=<token>",
    "# BITBUCKET_SERVER_BOT_USERNAME=<username>",
    "",
    "# CodeRabbit Licensing",
    "CODERABBIT_LICENSE_KEY=<license-key>",
    "CODERABBIT_API_KEY=<api-key>",
    "",
    "# Optional Features",
    "ENABLE_METRICS=true",
    "ENABLE_LEARNINGS=true",
    "OBJECT_STORE_URI=<s3://bucket/path>",
    "",
    "# Integration (optional)",
    "JIRA_HOST=<jira-url>",
    "JIRA_PAT=<jira-token>",
    "LINEAR_PAT=<linear-token>",
    "",
    "# Web Search (optional)",
    "ENABLE_WEB_SEARCH=true",
    "PERPLEXITY_API_KEY=<perplexity-key>",
    "",
    "# Proxy Configuration (optional)",
    "HTTP_PROXY=<http-proxy>",
    "HTTPS_PROXY=<https-proxy>",
    "NO_PROXY=<no-proxy>"]

/-- One entry of the `contents` list a resource read returns. -/
structure ResourceContents where
  uri : String
  mimeType : String
  text : String
deriving DecidableEq, Repr

/-- The `ReadResourceRequestSchema` handler (lines 296-339): switch on the
URI; the `default` branch throws `Unknown resource: <uri>`. -/
def readResource (uri : String) (_w : World) : Except String ResourceContents :=
  if uri = "coderabbit://config/sample" then
    .ok { uri := uri, mimeType := "application/yaml", text := getSampleConfiguration }
  else if uri = "coderabbit://commands/help" then
    .ok { uri := uri, mimeType := "text/markdown", text := getCommandsHelp }
  else if uri = "coderabbit://tools/astgrep" then
    .ok { uri := uri, mimeType := "application/yaml", text := getAstGrepExamples }
  else if uri = "coderabbit://env/template" then
    .ok { uri := uri, mimeType := "text/plain", text := getEnvTemplate }
  else
    .error ("Unknown resource: " ++ uri)

/-!
Substring containment, used to state that a value appears inside a
generated text document.
-/

/-- Substring containment: `needle` occurs contiguously inside `whole`. -/
def Contains (needle whole : String) : Prop :=
  ∃ s t : List Char, whole.data = s ++ needle.data ++ t

instance (n w : String) : Decidable (Contains n w) :=
  decidable_of_iff (n.data <:+: w.data)
    ⟨fun ⟨s, t, h⟩ => ⟨s, t, h.symm⟩, fun ⟨s, t, h⟩ => ⟨s, t, h.symm⟩⟩

/-!
Concrete inputs used by the closed statements below.
-/

/-- An empty argument object. -/
def args0 : Args := {}

/-- A generic ambient world: no API key, both network calls failing. -/
def w0 : World :=
  { apiKey := "", now := "2025-06-01T12:00:00.000Z",
    reportNet := .thrown none, healthNet := .thrown none }

/-- Arguments of a `generate_report` call whose `to` field is missing. -/
def c1Args : Args := { from_ := some "2024-01-01" }

/-- A world with an API key configured and a responsive upstream. -/
def c1World : World :=
  { apiKey := "test-key-for-demo", now := "2025-06-01T12:00:00.000Z",
    reportNet := .ok 200 "OK" "\x7b\x7d", healthNet := .thrown none }

/-- Well-formed `generate_report` arguments. -/
def c2Args : Args := { from_ := some "2024-01-01", to_ := some "2024-01-31" }

/-- Arguments of an `analyze_pull_request` call. -/
def c4Args : Args := { repository := some "octo/repo", pullRequestNumber := some 7 }

/-- A world observed at one instant. -/
def c4WorldA : World :=
  { apiKey := "", now := "2025-01-01T00:00:00.000Z",
    reportNet := .thrown none, healthNet := .thrown none }

/-- The same world observed one day later. -/
def c4WorldB : World :=
  { apiKey := "", now := "2025-01-02T00:00:00.000Z",
    reportNet := .thrown none, healthNet := .thrown none }

/-- A configuration whose `essentialRules` field is present with value
`false`. -/
def c3Config : ReviewConfiguration :=
  { pathInstructions := none,
    tools := some { astGrep := some { essentialRules := some false } } }

/-- An ast-grep sub-configuration exercising every field. -/
def c3FullAst : AstGrepConfig :=
  { essentialRules := some true,
    ruleDirs := some ["custom-rules"],
    utilDirs := some ["utils"],
    packages := some ["my-awesome-org/my-awesome-package"] }

/-- A configuration exercising every field of the schema. -/
def c3Full : ReviewConfiguration :=
  { pathInstructions := some [{ path := "**/*.ts", instructions := "Check types" }],
    tools := some { astGrep := some c3FullAst } }

/-- A world whose health probe fails with a connection error. -/
def c6World : World :=
  { apiKey := "", now := "2025-06-01T12:00:00.000Z",
    reportNet := .thrown none,
    healthNet := .axiosError none none "connect ECONNREFUSED 127.0.0.1:8080" }

theorem contains_refl (s : String) : Contains s s :=
  ⟨[], [], by simp⟩

theorem contains_app_left {n a : String} (b : String) (h : Contains n a) :
    Contains n (a ++ b) := by
  obtain ⟨s, t, hs⟩ := h
  exact ⟨s, t ++ b.data, by rw [String.data_append, hs]; simp⟩

theorem contains_app_right {n b : String} (a : String) (h : Contains n b) :
    Contains n (a ++ b) := by
  obtain ⟨s, t, hs⟩ := h
  exact ⟨a.data ++ s, t, by rw [String.data_append, hs]; simp⟩

theorem contains_of_mem_strConcat {s : String} {l : List String}
    (h : s ∈ l) : Contains s (strConcat l) := by
  induction l with
  | nil => cases h
  | cons a l ih =>
    rcases List.mem_cons.mp h with rfl | hmem
    · exact contains_app_left _ (contains_refl s)
    · exact contains_app_right _ (ih hmem)

/-- The switch's case labels are exactly the catalog names. -/
theorem registeredToolNames_eq_catalog :
    registeredToolNames = toolList.map ToolDescriptor.name := rfl

/-- C8: every list-tools request returns the same six tool descriptors in
the same fixed order, and each descriptor marks as required exactly the
catalog's required fields (`generate_report`: from, to;
`analyze_pull_request`: repository, pullRequestNumber;
`configure_review_settings`: repository, configuration;
`send_review_command`: command; `check_health`: none;
`create_custom_report`: template, dateRange). -/
theorem listTools_fixed_catalog :
    (∀ w w' : World, listTools w = listTools w') ∧
    toolList.map ToolDescriptor.name =
      ["generate_report", "analyze_pull_request", "configure_review_settings",
       "send_review_command", "check_health", "create_custom_report"] ∧
    toolList.map ToolDescriptor.requiredFields =
      [["from", "to"], ["repository", "pullRequestNumber"],
       ["repository", "configuration"], ["command"], [],
       ["template", "dateRange"]] :=
  ⟨fun _ _ => rfl, rfl, rfl⟩

/-- C9: resource listing and reading are deterministic and independent of
the ambient world, so two consecutive identical requests return
byte-identical descriptor sets and content bodies; the catalog consists of
exactly the four registered URIs and each of them reads successfully with
its declared MIME type and fixed template body. -/
theorem resources_idempotent_fixed :
    (∀ w w' : World, listResources w = listResources w') ∧
    (∀ (uri : String) (w w' : World), readResource uri w = readResource uri w') ∧
    resourceList.map ResourceDescriptor.uri =
      ["coderabbit://config/sample", "coderabbit://commands/help",
       "coderabbit://tools/astgrep", "coderabbit://env/template"] ∧
    (∀ w : World,
      readResource "coderabbit://config/sample" w =
        .ok { uri := "coderabbit://config/sample", mimeType := "application/yaml",
              text := getSampleConfiguration } ∧
      readResource "coderabbit://commands/help" w =
        .ok { uri := "coderabbit://commands/help", mimeType := "text/markdown",
              text := getCommandsHelp } ∧
      readResource "coderabbit://tools/astgrep" w =
        .ok { uri := "coderabbit://tools/astgrep", mimeType := "application/yaml",
              text := getAstGrepExamples } ∧
      readResource "coderabbit://env/template" w =
        .ok { uri := "coderabbit://env/template", mimeType := "text/plain",
              text := getEnvTemplate }) :=
  ⟨fun _ _ => rfl, fun _ _ _ => rfl, rfl, fun _ => ⟨rfl, rfl, rfl, rfl⟩⟩

/-- C5: a call-tool request whose name is not one of the six registered
tool names takes the switch's `default` branch — no handler is selected —
and produces the error-shaped envelope `Unknown tool: <name>`. -/
theorem unknown_tool_rejected (name : String) (args : Args) (w : World)
    (h : name ∉ registeredToolNames) :
    lookupTool name = none ∧
    callTool name args w = errorEnvelope name ("Unknown tool: " ++ name) ∧
    (callTool name args w).isError = true := by
  simp only [registeredToolNames, List.mem_cons, List.not_mem_nil, or_false,
    not_or] at h
  obtain ⟨h1, h2, h3, h4, h5, h6⟩ := h
  have hl : lookupTool name = none := by
    simp [lookupTool, h1, h2, h3, h4, h5, h6]
  refine ⟨hl, ?_, ?_⟩ <;> simp [callTool, hl, errorEnvelope]

/-- Closed witness for C5 at the spec's example name. -/
theorem unknown_tool_rejected_witness :
    "delete_everything" ∉ registeredToolNames ∧
    lookupTool "delete_everything" = none ∧
    (callTool "delete_everything" args0 w0).isError = true :=
  ⟨by decide,
   (unknown_tool_rejected "delete_everything" args0 w0 (by decide)).1,
   (unknown_tool_rejected "delete_everything" args0 w0 (by decide)).2.2⟩

/-- C2 counterexample: a concrete `generate_report` invocation issues its
POST with an axios options object carrying no `timeout` key at all, so the
claim that every report-handler network operation is bounded by an
explicit per-request timeout is false. -/
theorem report_request_has_no_timeout :
    (generateReportRun c2Args c1World).networkRequest.map
      (fun r => r.config.timeout) = some none := rfl

/-- C2 (amended): only the health-check probe carries an explicit
per-request timeout (5000 ms); the report handler's POST is issued with no
timeout option. -/
theorem timeout_only_on_health_probe :
    checkHealthAxiosConfig.timeout = some 5000 ∧
    (∀ args : Args, (checkHealthRequest args).config.timeout = some 5000) ∧
    (∀ apiKey : String, (generateReportAxiosConfig apiKey).timeout = none) :=
  ⟨rfl, fun _ => rfl, fun _ => rfl⟩

/-- C7: a `send_review_command` call with command `generate docstrings`
resolves the directive to the fixed canonical string, whatever the
`context` (and `targetFiles`) arguments are, and the response text starts
with that directive. -/
theorem generate_docstrings_fixed_directive (args : Args) (w : World)
    (h : args.command = some "generate docstrings") :
    lookupCommand args.command args.context =
      some "@coderabbitai generate docstrings" ∧
    Contains "CodeRabbit Command: @coderabbitai generate docstrings\n\nThis command"
      (firstText (callTool "send_review_command" args w)) := by
  have hd : lookupCommand args.command args.context =
      some "@coderabbitai generate docstrings" := by rw [h]; rfl
  refine ⟨hd, ?_⟩
  show Contains _ (sendReviewCommandText args)
  unfold sendReviewCommandText
  rw [hd]
  exact contains_app_left _ (by decide)

/-- Closed witness for C7, with a context argument supplied. -/
theorem generate_docstrings_fixed_directive_witness :
    lookupCommand (some "generate docstrings") (some "Focus on public API functions") =
      some "@coderabbitai generate docstrings" ∧
    Contains "CodeRabbit Command: @coderabbitai generate docstrings\n\nThis command"
      (firstText (callTool "send_review_command"
        { command := some "generate docstrings",
          context := some "Focus on public API functions" } w0)) :=
  generate_docstrings_fixed_directive
    { command := some "generate docstrings",
      context := some "Focus on public API functions" } w0 rfl

/-- C10: a `send_review_command` call whose command is outside the five
enumerated values is not rejected: the object lookup yields `undefined`,
the response is success-shaped (`isError` unset), and its text embeds the
literal `undefined` as the directive. -/
theorem unknown_command_undefined_directive (args : Args) (w : World)
    (cmd : String) (hc : args.command = some cmd)
    (h : cmd ∉ sendReviewCommandEnum) :
    lookupCommand args.command args.context = none ∧
    (callTool "send_review_command" args w).isError = false ∧
    Contains "CodeRabbit Command: undefined\n\nThis command"
      (firstText (callTool "send_review_command" args w)) := by
  simp only [sendReviewCommandEnum, List.mem_cons, List.not_mem_nil, or_false,
    not_or] at h
  obtain ⟨h1, h2, h3, h4, h5⟩ := h
  have b1 : (cmd == "generate docstrings") = false := beq_eq_false_iff_ne.mpr h1
  have b2 : (cmd == "explain reasoning") = false := beq_eq_false_iff_ne.mpr h2
  have b3 : (cmd == "remember rule") = false := beq_eq_false_iff_ne.mpr h3
  have b4 : (cmd == "provide context") = false := beq_eq_false_iff_ne.mpr h4
  have b5 : (cmd == "clarify suggestion") = false := beq_eq_false_iff_ne.mpr h5
  have hd : lookupCommand args.command args.context = none := by
    rw [hc]
    simp [lookupCommand, commandMapping, List.lookup, b1, b2, b3, b4, b5]
  refine ⟨hd, rfl, ?_⟩
  show Contains _ (sendReviewCommandText args)
  unfold sendReviewCommandText
  rw [hd]
  exact contains_app_left _ (by decide)

/-- Closed witness for C10 at the command string `delete everything`. -/
theorem unknown_command_undefined_directive_witness :
    "delete everything" ∉ sendReviewCommandEnum ∧
    (callTool "send_review_command" { command := some "delete everything" } w0).isError
      = false ∧
    Contains "CodeRabbit Command: undefined\n\nThis command"
      (firstText (callTool "send_review_command"
        { command := some "delete everything" } w0)) :=
  ⟨by decide,
   (unknown_command_undefined_directive { command := some "delete everything" }
     w0 "delete everything" rfl (by decide)).2.1,
   (unknown_command_undefined_directive { command := some "delete everything" }
     w0 "delete everything" rfl (by decide)).2.2⟩

/-- C1 (code evaluated at the failing input): a `generate_report` call
whose arguments lack `to` is dispatched straight into the handler — no
validation step exists — and, with an API key configured, the handler
issues the upstream POST (with `to` absent from the body) and returns a
success-shaped response; no `ValidationError` protocol error is produced. -/
theorem missing_to_reaches_handler_and_network :
    lookupTool "generate_report" = some ToolName.generate_report ∧
    c1Args.to_ = none ∧
    (generateReportRun c1Args c1World).networkRequest =
      some { url := "https://api.coderabbit.ai/api/v1/report.generate",
             bodyFrom := some "2024-01-01", bodyTo := none,
             config := generateReportAxiosConfig "test-key-for-demo" } ∧
    (callTool "generate_report" c1Args c1World).isError = false :=
  ⟨rfl, rfl, rfl, rfl⟩

/-- C6: `check_health` never produces an error-shaped response — every
probe outcome, including failures, yields a success-shaped tool result —
and on failure the text carries the attempted agent URL and the failure
reason (the thrown error's message, or `Unknown error` for a non-Error
throw). -/
theorem check_health_never_errors (args : Args) (w : World) :
    (callTool "check_health" args w).isError = false ∧
    (∀ respStatus respDataMessage message,
      w.healthNet = NetResult.axiosError respStatus respDataMessage message →
      Contains (jsOr args.agentUrl "http://127.0.0.1:8080")
        (firstText (callTool "check_health" args w)) ∧
      Contains message (firstText (callTool "check_health" args w))) ∧
    (∀ m, w.healthNet = NetResult.thrown (some m) →
      Contains (jsOr args.agentUrl "http://127.0.0.1:8080")
        (firstText (callTool "check_health" args w)) ∧
      Contains m (firstText (callTool "check_health" args w))) ∧
    (w.healthNet = NetResult.thrown none →
      Contains (jsOr args.agentUrl "http://127.0.0.1:8080")
        (firstText (callTool "check_health" args w)) ∧
      Contains "Unknown error" (firstText (callTool "check_health" args w))) := by
  obtain ⟨apiKey, now, reportNet, healthNet⟩ := w
  cases healthNet with
  | ok s st d =>
    refine ⟨rfl, ?_, ?_, ?_⟩ <;> intros <;> simp_all
  | axiosError rs rdm msg =>
    refine ⟨rfl, ?_, ?_, ?_⟩
    · intro a b c hEq
      injection hEq with ha hb hc
      subst hc
      exact ⟨contains_app_left _ (contains_app_left _
          (contains_app_right _ (contains_refl _))),
        contains_app_right _ (contains_refl _)⟩
    · intro m hEq; simp_all
    · intro hEq; simp_all
  | thrown m =>
    refine ⟨rfl, ?_, ?_, ?_⟩
    · intro a b c hEq; simp_all
    · intro m' hEq
      injection hEq with hm
      subst hm
      exact ⟨contains_app_left _ (contains_app_left _
          (contains_app_right _ (contains_refl _))),
        contains_app_right _ (contains_refl _)⟩
    · intro hEq
      injection hEq with hm
      subst hm
      exact ⟨contains_app_left _ (contains_app_left _
          (contains_app_right _ (contains_refl _))),
        contains_app_right _ (contains_refl _)⟩

/-- Closed witness for C6: an unreachable default-address probe yields a
success-shaped result whose text names the URL and the connection error. -/
theorem check_health_never_errors_witness :
    (callTool "check_health" args0 c6World).isError = false ∧
    Contains "http://127.0.0.1:8080" (firstText (callTool "check_health" args0 c6World)) ∧
    Contains "connect ECONNREFUSED 127.0.0.1:8080"
      (firstText (callTool "check_health" args0 c6World)) := by
  obtain ⟨h0, h1, -, -⟩ := check_health_never_errors args0 c6World
  obtain ⟨hu, hm⟩ := h1 none none "connect ECONNREFUSED 127.0.0.1:8080" rfl
  exact ⟨h0, hu, hm⟩

/-- C4 counterexample: two `analyze_pull_request` invocations with
identical argument objects but executed at different instants return
different content payloads, because the payload embeds
`new Date().toISOString()`; the handler is not deterministic in its
arguments alone. -/
theorem analyze_not_time_invariant :
    callTool "analyze_pull_request" c4Args c4WorldA ≠
      callTool "analyze_pull_request" c4Args c4WorldB := by decide

/-- C4 (amended): `analyze_pull_request` is deterministic in the pair
(arguments, clock reading): two invocations with identical arguments and
the same timestamp return identical payloads, and the timestamp is the
only world-dependent part. -/
theorem analyze_deterministic_given_time (args : Args) (w w' : World)
    (h : w.now = w'.now) :
    callTool "analyze_pull_request" args w =
      callTool "analyze_pull_request" args w' := by
  obtain ⟨k, n, rn, hn⟩ := w
  obtain ⟨k', n', rn', hn'⟩ := w'
  cases h
  rfl

/-- Closed witness for C4 (amended): equal clocks, otherwise different
worlds. -/
theorem analyze_deterministic_given_time_witness :
    callTool "analyze_pull_request" c4Args c4WorldA =
      callTool "analyze_pull_request" c4Args
        { apiKey := "other-key", now := "2025-01-01T00:00:00.000Z",
          reportNet := .ok 200 "OK" "x", healthNet := .ok 200 "OK" "y" } :=
  analyze_deterministic_given_time c4Args c4WorldA
    { apiKey := "other-key", now := "2025-01-01T00:00:00.000Z",
      reportNet := .ok 200 "OK" "x", healthNet := .ok 200 "OK" "y" } rfl

/-- C3 counterexample: a configuration whose `astGrep.essentialRules`
field is present with value `false` is not reflected in the serialized
document at all — the generator emits `essential_rules` only for a truthy
value, so the output is the bare section skeleton. -/
theorem essential_rules_false_dropped :
    Option.bind c3Config.tools ToolsConfig.astGrep =
      some { essentialRules := some false } ∧
    generateCodeRabbitYaml c3Config =
      "# CodeRabbit Configuration\n\n\n  tools:\n    ast-grep:\n" ∧
    ¬ Contains "essential_rules" (generateCodeRabbitYaml c3Config) :=
  ⟨rfl, rfl, by decide⟩

/-- C3 (amended): every field present in the input configuration appears
in the serialized output with its given value — each `pathInstructions`
entry as its quoted `path` plus block-scalar `instructions`, and each
`ruleDirs`/`utilDirs`/`packages` element as a quoted list item — except
`essentialRules`, which is emitted (as `essential_rules: true`) only when
its value is `true` and is omitted when it is `false`. -/
theorem yaml_reflects_present_fields (c : ReviewConfiguration) :
    (∀ l, c.pathInstructions = some l → ∀ pi ∈ l,
      Contains (renderPathInstruction pi) (generateCodeRabbitYaml c)) ∧
    (∀ ag, Option.bind c.tools ToolsConfig.astGrep = some ag →
      (ag.essentialRules = some true →
        Contains "      essential_rules: true\n" (generateCodeRabbitYaml c)) ∧
      (∀ ds, ag.ruleDirs = some ds → ∀ d ∈ ds,
        Contains (renderQuotedItem d) (generateCodeRabbitYaml c)) ∧
      (∀ ds, ag.utilDirs = some ds → ∀ d ∈ ds,
        Contains (renderQuotedItem d) (generateCodeRabbitYaml c)) ∧
      (∀ ds, ag.packages = some ds → ∀ d ∈ ds,
        Contains (renderQuotedItem d) (generateCodeRabbitYaml c))) := by
  constructor
  · intro l hl pi hpi
    unfold generateCodeRabbitYaml
    rw [hl]
    apply contains_app_left
    apply contains_app_right
    unfold pathInstructionsSection
    exact contains_app_right _
      (contains_of_mem_strConcat (List.mem_map_of_mem _ hpi))
  · intro ag hag
    unfold generateCodeRabbitYaml
    rw [hag]
    simp only [astGrepSection]
    refine ⟨?_, ?_, ?_, ?_⟩
    · intro hess
      apply contains_app_right
      rw [hess]
      apply contains_app_left
      apply contains_app_left
      apply contains_app_left
      exact contains_app_right _ (contains_refl _)
    · intro ds hds d hd
      apply contains_app_right
      rw [hds]
      apply contains_app_left
      apply contains_app_left
      apply contains_app_right
      unfold quotedListPart
      exact contains_app_right _
        (contains_of_mem_strConcat (List.mem_map_of_mem _ hd))
    · intro ds hds d hd
      apply contains_app_right
      rw [hds]
      apply contains_app_left
      apply contains_app_right
      unfold quotedListPart
      exact contains_app_right _
        (contains_of_mem_strConcat (List.mem_map_of_mem _ hd))
    · intro ds hds d hd
      apply contains_app_right
      rw [hds]
      apply contains_app_right
      unfold quotedListPart
      exact contains_app_right _
        (contains_of_mem_strConcat (List.mem_map_of_mem _ hd))

/-- Closed witness for C3 (amended) on a configuration exercising every
field. -/
theorem yaml_reflects_present_fields_witness :
    Contains (renderPathInstruction { path := "**/*.ts", instructions := "Check types" })
      (generateCodeRabbitYaml c3Full) ∧
    Contains "      essential_rules: true\n" (generateCodeRabbitYaml c3Full) ∧
    Contains (renderQuotedItem "custom-rules") (generateCodeRabbitYaml c3Full) ∧
    Contains (renderQuotedItem "utils") (generateCodeRabbitYaml c3Full) ∧
    Contains (renderQuotedItem "my-awesome-org/my-awesome-package")
      (generateCodeRabbitYaml c3Full) := by
  obtain ⟨hp, ha⟩ := yaml_reflects_present_fields c3Full
  obtain ⟨h1, h2, h3, h4⟩ := ha c3FullAst rfl
  exact ⟨hp _ rfl _ (by simp), h1 rfl, h2 _ rfl _ (by simp),
    h3 _ rfl _ (by simp), h4 _ rfl _ (by simp)⟩

end CodeRabbitMCP
